import Mathlib

/-!
Shallow embedding of the BookS repository (doc2docx.py, docx2md.py,
file_scraper.py) and proofs about its overwrite/skip, download-cleanup,
tally and link-selection behavior.

Filesystem state is an association list from file names to byte contents.
External effects (the HTTP layer, the LibreOffice process, the pandoc
process) are parameters of the embedded functions: a Net value describes
what requests.get and the chunk iterator do, a Proc or PandocProc value
describes what the spawned process prints and writes.  Log output is
modelled as a list of tagged messages mirroring the print and logging
calls of the source.
-/

namespace BookS

/-- File contents, a list of byte values. -/
abbrev Content := List Nat

/-- The filesystem: an association list from file name to contents. -/
abbrev FS := List (String × Content)

/-- Look up the contents of a file (models os.path.exists / reading). -/
def fsLookup : FS → String → Option Content
  | [], _ => none
  | (m, c) :: rest, name => if m = name then some c else fsLookup rest name

/-- Models os.path.exists. -/
def fsExists (fs : FS) (name : String) : Bool :=
  (fsLookup fs name).isSome

/-- Models os.remove: drop every entry with the given name. -/
def fsErase : FS → String → FS
  | [], _ => []
  | (m, c) :: rest, name =>
      if m = name then fsErase rest name else (m, c) :: fsErase rest name

/-- Models writing a file: replace any previous entry with fresh contents. -/
def fsWrite (fs : FS) (name : String) (c : Content) : FS :=
  (name, c) :: fsErase fs name

/-- Tagged log messages, one constructor per print or logging call of the
source scripts. -/
inductive Msg where
  | overwriting (f : String)
  | skipping (f : String)
  | downloading (f : String) (done : Nat) (remaining : Int)
  | downloaded (f : String)
  | dlError (f : String)
  | deletedFile (f : String)
  | interrupted (f : String)
  | procOutput (s : String)
  | procError (s : String)
  | convertFailed (src dst : String)
  | converted (src dst : String)
  | mdSkipping (src dst : String)
  | mdConverting (src dst : String)
  | mdFailed (src dst : String)
  | pandocOutput (src s : String)
  | mdFinished (src dst : String)
  deriving DecidableEq

/-- The http scheme marker tested by valid_url. -/
def httpScheme : String := "http://"

/-- The https scheme marker tested by valid_url. -/
def httpsScheme : String := "https://"

/-- The leading-dot marker tested by valid_extension. -/
def dotStr : String := "."

/-- A path separator as a string. -/
def slashStr : String := "/"

/-- Result key returned by download_file for a skipped file. -/
def resSkipped : String := "skipped"

/-- Result key returned by download_file for a completed download. -/
def resSuccess : String := "success"

/-- Result key returned by download_file after a requests exception. -/
def resError : String := "error"

/-- The tally key for overwrites, present in download_results but never
returned by download_file. -/
def resOverwrite : String := "overwrite"

/-- Example file name used in concrete witnesses below. -/
def exF : String := "f"

/-- Second example file name. -/
def exG : String := "g"

/-- Example extension argument. -/
def exPdf : String := ".pdf"

/-- Example page URL. -/
def exBaseUrl : String := "http://e.com/"

/-- Example href ending in the requested extension. -/
def exHrefA : String := "a.pdf"

/-- Second example href ending in the requested extension. -/
def exHrefB : String := "b.pdf"

/-- Example page URL for the link-selection counterexample. -/
def exUrl2 : String := "http://example.com/"

/-- An href whose raw text ends in .pdf although its resolved URL path
does not. -/
def exPhpHref : String := "get.php?f=a.pdf"

/-- The resolution of exPhpHref against exUrl2. -/
def exResolvedPhp : String := "http://example.com/get.php?f=a.pdf"

/-- Example source document name. -/
def exDocFile : String := "a.doc"

/-- Example docx source name. -/
def exDocxFile : String := "a.docx"

/-- Example output directory. -/
def exOutDir : String := "out"

/-- The docx target computed from exOutDir and exDocFile. -/
def exDocxTarget : String := "out/a.docx"

/-- The markdown target computed from exOutDir and exDocxFile. -/
def exMdTarget : String := "out/a.md"

/-- Example project folder. -/
def exProj : String := "p"

/-- Example pre-existing download target. -/
def exDlTarget : String := "d/f.bin"

/-- Example non-whitespace stderr text. -/
def exBoom : String := "boom"

/-- A whitespace-only stderr text. -/
def exNl : String := "\n"

/-- String comparison by character lists (the byte-position based String
primitives do not reduce well inside the kernel, so the embedding works
on the underlying character lists throughout). -/
def strStartsWith (s p : String) : Bool :=
  s.data.take p.data.length == p.data

/-- Suffix test by character lists; behaves as String.endsWith. -/
def strEndsWith (s p : String) : Bool :=
  s.data.drop (s.data.length - p.data.length) == p.data

/-- Drop the first n characters of a string. -/
def strDropN (s : String) (n : Nat) : String :=
  String.mk (s.data.drop n)

/-- ASCII whitespace, the characters bytes.strip removes in the source
use. -/
def isWsChar (c : Char) : Bool :=
  (c == ' ') || (c == '\t') || (c == '\n') || (c == '\r')

/-- Models the strip method used on stderr: whitespace removed from both
ends. -/
def strStrip (s : String) : String :=
  String.mk (((s.data.dropWhile isWsChar).reverse.dropWhile isWsChar).reverse)

/-- Models valid_url of file_scraper.py: reject a string that starts with
neither scheme marker, return it unchanged otherwise.  The source raises
argparse.ArgumentTypeError, modelled by Except.error; the message text is
abbreviated.  The function touches only its argument: no network and no
filesystem activity appears in the source body. -/
def valid_url (s : String) : Except String String :=
  if !strStartsWith s httpScheme && !strStartsWith s httpsScheme then
    Except.error ("Invalid URL " ++ s)
  else
    Except.ok s

/-- Models valid_extension of file_scraper.py: reject a string that does
not start with a dot, return it unchanged otherwise.  Pure in the source
as well: no network and no filesystem activity. -/
def valid_extension (s : String) : Except String String :=
  if !strStartsWith s dotStr then
    Except.error ("Invalid extension " ++ s)
  else
    Except.ok s

/-- Splits a URL into its scheme marker and the remainder. -/
def schemeSplit (u : String) : String × String :=
  if strStartsWith u httpScheme then (httpScheme, strDropN u 7)
  else if strStartsWith u httpsScheme then (httpsScheme, strDropN u 8)
  else ("", u)

/-- The scheme and host part of a URL: everything up to the first slash
after the scheme. -/
def hostOf (u : String) : String :=
  (schemeSplit u).1 ++ String.mk ((schemeSplit u).2.data.takeWhile (fun c => c != '/'))

/-- Everything up to and including the last slash of a character list,
or none when no slash occurs. -/
def upToLastSlash : List Char → Option (List Char)
  | [] => none
  | c :: rest =>
      match upToLastSlash rest with
      | some r => some (c :: r)
      | none => if c = '/' then some [c] else none

/-- The directory part of a URL: scheme plus everything up to the last
slash of the remainder; a URL with no path gets a trailing slash. -/
def baseDir (u : String) : String :=
  match upToLastSlash (schemeSplit u).2.data with
  | some r => (schemeSplit u).1 ++ String.mk r
  | none => (schemeSplit u).1 ++ (schemeSplit u).2 ++ slashStr

/-- Models urllib.parse.urljoin for the link shapes this scraper meets:
an href carrying its own scheme replaces the base entirely, a
root-relative href is attached to the scheme and host of the base, and
any other href replaces the last segment of the base path.  Dot segments
and empty hrefs are outside the model. -/
def urljoin (base href : String) : String :=
  if strStartsWith href httpScheme || strStartsWith href httpsScheme then href
  else if strStartsWith href slashStr then hostOf base ++ href
  else baseDir base ++ href

/-- The path part of a resolved URL: everything before the first question
mark or hash.  Used only to state the selection rule the spec words. -/
def urlPath (u : String) : String :=
  String.mk (u.data.takeWhile (fun c => c != '?' && c != '#'))

/-- Models the files_to_download comprehension of download_files: keep a
link when its RAW href string ends with one of the requested extensions,
and resolve the kept hrefs against the page URL.  Anchors without an
href attribute are outside the model (the source would crash on them). -/
def files_to_download (url : String) (hrefs : List String)
    (extensions : List String) : List String :=
  (hrefs.filter (fun h => extensions.any (fun ext => strEndsWith h ext))).map
    (fun h => urljoin url h)

/-- The selection rule as the spec words it: keep exactly the links whose
RESOLVED URL path ends with one of the requested extensions.  Stated for
comparison with files_to_download, which is the rule the source applies. -/
def files_per_spec (url : String) (hrefs : List String)
    (extensions : List String) : List String :=
  (hrefs.map (fun h => urljoin url h)).filter
    (fun r => extensions.any (fun ext => strEndsWith (urlPath r) ext))

/-- Models os.path.basename for slash-separated paths: the part after the
last slash. -/
def basename (p : String) : String :=
  String.mk (p.data.reverse.takeWhile (fun c => c != '/')).reverse

/-- Models the first component of os.path.splitext for ordinary names:
everything before the last dot, or the whole name when it has no dot. -/
def splitextStem (s : String) : String :=
  if s.data.reverse.contains '.' then
    String.mk ((s.data.reverse.dropWhile (fun c => c != '.')).drop 1).reverse
  else s

/-- Models os.path.join for a relative second component. -/
def joinPath (dir name : String) : String :=
  if strEndsWith dir slashStr then dir ++ name else dir ++ slashStr ++ name

/-- The output path computed by convert_to_docx: basename of the doc file
with its extension swapped to .docx, inside the output directory. -/
def docx_output_file (output_path doc_file : String) : String :=
  joinPath output_path (splitextStem (basename doc_file) ++ ".docx")

/-- The output path computed by convert_to_md: basename of the docx file
with its extension swapped to .md, flattened into the output directory. -/
def md_output_file (output_directory docx_file : String) : String :=
  joinPath output_directory (splitextStem (basename docx_file) ++ ".md")

/-- The behavior of one requests.get call together with its chunk
iterator: either the request itself raises a requests exception, or it
yields a response with an optional parsed Content-Length header and the
list of chunks delivered before the stream ends as described by the
tail. -/
inductive StreamTail where
  | done
  | raiseReq
  | raiseKbd
  deriving DecidableEq

/-- See StreamTail: the network behavior a download meets. -/
inductive Net where
  | requestError
  | response (contentLength : Option Nat) (chunks : List Content)
      (tail : StreamTail)
  deriving DecidableEq

/-- Exceptions that can escape download_file: KeyboardInterrupt, or the
UnboundLocalError raised when the finally block reads total_size although
requests.get raised before assigning it. -/
inductive Exc where
  | kbd
  | unboundLocal
  deriving DecidableEq

/-- How download_file ends: a returned result string, or an exception. -/
inductive DLOutcome where
  | ret (s : String)
  | raise (e : Exc)
  deriving DecidableEq

/-- State after one download_file call: the filesystem, the printed
messages, the outcome, and whether requests.get was invoked at all. -/
structure DFRes where
  fs : FS
  log : List Msg
  out : DLOutcome
  requested : Bool
  deriving DecidableEq

/-- The per-chunk progress prints of the verbose download loop:
downloaded bytes so far and remaining bytes against total_size (remaining
may be negative, as in the source arithmetic). -/
def chunkLogs (filename : String) (totalSize : Nat) :
    Nat → List Content → List Msg
  | _, [] => []
  | acc, c :: rest =>
      Msg.downloading filename (acc + c.length)
          ((totalSize : Int) - ((acc : Int) + (c.length : Int))) ::
        chunkLogs filename totalSize (acc + c.length) rest

/-- The try/except/finally body of download_file, entered once the
existence check has been passed.  On requestError the except clause logs
and prepares to return the error key, but the finally clause reads
total_size, which was never assigned: when the target file exists (only
possible here in the overwrite case) this raises UnboundLocalError.  On a
response, the chunks are written (open truncates, so the file holds
exactly the joined chunks), and the finally clause deletes the file
unless its size equals total_size, the Content-Length value defaulted to
zero. -/
def download_body (fs : FS) (filename : String) (net : Net)
    (verbose : Bool) (log0 : List Msg) : DFRes :=
  match net with
  | Net.requestError =>
      { fs := fs
        log := log0 ++ [Msg.dlError filename]
        out := if fsExists fs filename then DLOutcome.raise Exc.unboundLocal
               else DLOutcome.ret resError
        requested := true }
  | Net.response contentLength chunks tail =>
      { fs := if (List.flatten chunks).length = contentLength.getD 0 then
                fsWrite fs filename (List.flatten chunks)
              else
                fsErase (fsWrite fs filename (List.flatten chunks)) filename
        log := log0 ++
          (if verbose then chunkLogs filename (contentLength.getD 0) 0 chunks
           else []) ++
          (match tail with
           | StreamTail.done =>
               if verbose then [] else [Msg.downloaded filename]
           | StreamTail.raiseReq => [Msg.dlError filename]
           | StreamTail.raiseKbd => []) ++
          (if (List.flatten chunks).length = contentLength.getD 0 then []
           else [Msg.deletedFile filename])
        out := match tail with
          | StreamTail.done => DLOutcome.ret resSuccess
          | StreamTail.raiseReq => DLOutcome.ret resError
          | StreamTail.raiseKbd => DLOutcome.raise Exc.kbd
        requested := true }

/-- Models download_file of file_scraper.py.  An existing target is
skipped unless overwrite is set; otherwise the body downloads, cleans up
and returns as described at download_body. -/
def download_file (fs : FS) (filename : String) (net : Net)
    (verbose overwrite : Bool) : DFRes :=
  if fsExists fs filename then
    if overwrite then
      download_body fs filename net verbose [Msg.overwriting filename]
    else
      { fs := fs
        log := [Msg.skipping filename]
        out := DLOutcome.ret resSkipped
        requested := false }
  else
    download_body fs filename net verbose []

/-- The download_results dictionary of download_files. -/
structure Tally where
  success : Nat
  overwrite : Nat
  skipped : Nat
  error : Nat
  deriving DecidableEq

/-- The dictionary as initialised, all counters zero. -/
def zeroTally : Tally := { success := 0, overwrite := 0, skipped := 0, error := 0 }

/-- Models download_results[result] += 1 for the keys of the dictionary.
download_file only ever produces the skipped, success and error keys; any
other key would raise KeyError in the source and is never reached. -/
def tallyInc (t : Tally) (key : String) : Tally :=
  if key = "success" then { t with success := t.success + 1 }
  else if key = "overwrite" then { t with overwrite := t.overwrite + 1 }
  else if key = "skipped" then { t with skipped := t.skipped + 1 }
  else if key = "error" then { t with error := t.error + 1 }
  else t

/-- The sum of the four printed counters. -/
def tallySum (t : Tally) : Nat :=
  t.success + t.overwrite + t.skipped + t.error

/-- How the download loop of download_files ends: all candidates
processed, stopped by the KeyboardInterrupt handler, or aborted by an
uncaught exception (then the results line is never printed). -/
inductive LoopExit where
  | finished
  | interruptedStop
  | crashed (e : Exc)
  deriving DecidableEq

/-- One candidate of the download loop: the local target filename and the
network behavior its URL meets. -/
structure Candidate where
  filename : String
  net : Net
  deriving DecidableEq

/-- State after the download loop of download_files. -/
structure LoopRes where
  tally : Tally
  fs : FS
  log : List Msg
  exit : LoopExit
  deriving DecidableEq

/-- Models the for-loop of download_files: each candidate goes through
download_file; a returned key is tallied and the loop continues; a
KeyboardInterrupt is caught, the in-progress file is removed when it
still exists, the error counter is bumped and the loop breaks; any other
exception propagates and aborts the run. -/
def dlLoop (fs : FS) (t : Tally) (cands : List Candidate)
    (verbose overwrite : Bool) : LoopRes :=
  match cands with
  | [] => { tally := t, fs := fs, log := [], exit := LoopExit.finished }
  | c :: rest =>
      let r := download_file fs c.filename c.net verbose overwrite
      match r.out with
      | DLOutcome.ret s =>
          let res := dlLoop r.fs (tallyInc t s) rest verbose overwrite
          { tally := res.tally
            fs := res.fs
            log := r.log ++ res.log
            exit := res.exit }
      | DLOutcome.raise Exc.kbd =>
          { tally := tallyInc t resError
            fs := if fsExists r.fs c.filename then fsErase r.fs c.filename
                  else r.fs
            log := r.log ++ Msg.interrupted c.filename ::
              (if fsExists r.fs c.filename then [Msg.deletedFile c.filename]
               else [])
            exit := LoopExit.interruptedStop }
      | DLOutcome.raise Exc.unboundLocal =>
          { tally := t
            fs := r.fs
            log := r.log
            exit := LoopExit.crashed Exc.unboundLocal }

/-- Models download_files after the page has been fetched: filter the
hrefs by raw suffix, resolve them, derive each local target name by
joining the project folder with the basename of the resolved URL, and run
the download loop starting from the zero tally.  The net oracle gives the
network behavior met at each resolved URL. -/
def download_files_run (fs : FS) (url project_folder : String)
    (hrefs extensions : List String) (net : String → Net)
    (verbose overwrite : Bool) : LoopRes :=
  dlLoop fs zeroTally
    ((files_to_download url hrefs extensions).map
      (fun f => { filename := joinPath project_folder (basename f)
                  net := net f }))
    verbose overwrite

/-- The observable behavior of the spawned LibreOffice process: what it
prints on stdout and stderr, and the contents it leaves in the target
file (none when it writes nothing). -/
structure Proc where
  stdout : String
  stderr : String
  writes : Option Content
  deriving DecidableEq

/-- State after convert_to_docx or convert_to_md: the filesystem, the log
messages, and whether the external process ran. -/
structure ConvRes where
  fs : FS
  log : List Msg
  spawned : Bool
  deriving DecidableEq

/-- The filesystem after the LibreOffice process ran: the target file
holds whatever the process wrote, or nothing changes when it wrote
nothing. -/
def convProcFs (proc : Proc) (fs : FS) (output_file : String) : FS :=
  match proc.writes with
  | some c => fsWrite fs output_file c
  | none => fs

/-- The log lines of convert_to_docx after communicate returns: stdout is
logged when non-empty; stderr is logged when non-empty, and when it is
also non-empty after stripping whitespace the failure line is logged and
the function returns; in every other case the converted line is logged. -/
def convDocxLog (proc : Proc) (doc_file output_file : String) : List Msg :=
  (if proc.stdout = "" then [] else [Msg.procOutput proc.stdout]) ++
  (if proc.stderr = "" then [Msg.converted doc_file output_file]
   else
     Msg.procError proc.stderr ::
       (if strStrip proc.stderr = "" then [Msg.converted doc_file output_file]
        else [Msg.convertFailed doc_file output_file]))

/-- Models convert_to_docx of doc2docx.py: skip an existing target unless
overwrite is set (logging either way), otherwise spawn LibreOffice and
handle its output as described at convDocxLog.  The function never
raises. -/
def convert_to_docx (proc : Proc) (fs : FS) (doc_file output_path : String)
    (overwrite : Bool) : ConvRes :=
  if fsExists fs (docx_output_file output_path doc_file) then
    if overwrite then
      { fs := convProcFs proc fs (docx_output_file output_path doc_file)
        log := Msg.overwriting (docx_output_file output_path doc_file) ::
          convDocxLog proc doc_file (docx_output_file output_path doc_file)
        spawned := true }
    else
      { fs := fs
        log := [Msg.skipping (docx_output_file output_path doc_file)]
        spawned := false }
  else
    { fs := convProcFs proc fs (docx_output_file output_path doc_file)
      log := convDocxLog proc doc_file (docx_output_file output_path doc_file)
      spawned := true }

/-- The observable behavior of the spawned pandoc process: whether Popen
itself raised, the exit code, the captured output, and the contents the
process leaves in the target file. -/
structure PandocProc where
  raises : Bool
  returncode : Int
  stdout : String
  stderr : String
  writes : Option Content
  deriving DecidableEq

/-- The filesystem after pandoc ran. -/
def pandocFs (proc : PandocProc) (fs : FS) (output_file : String) : FS :=
  match proc.writes with
  | some c => fsWrite fs output_file c
  | none => fs

/-- The log lines of convert_to_md after communicate returns: a non-zero
exit code logs the failure and returns, otherwise the verbose debug line
and the finished line are logged. -/
def mdResultLog (proc : PandocProc) (docx_file output_file : String)
    (verbose : Bool) : List Msg :=
  if proc.returncode = 0 then
    (if verbose then [Msg.pandocOutput docx_file proc.stdout] else []) ++
      [Msg.mdFinished docx_file output_file]
  else [Msg.mdFailed docx_file output_file]

/-- Models convert_to_md of docx2md.py: skip when overwrite is unset and
the target exists; otherwise run pandoc.  A Popen failure is logged and
nothing is written; otherwise the process effect is applied and its exit
code decides the logged outcome. -/
def convert_to_md (proc : PandocProc) (fs : FS)
    (docx_file output_directory : String) (overwrite verbose : Bool) :
    ConvRes :=
  if !overwrite && fsExists fs (md_output_file output_directory docx_file) then
    { fs := fs
      log := [Msg.mdSkipping docx_file (md_output_file output_directory docx_file)]
      spawned := false }
  else if proc.raises then
    { fs := fs
      log := [Msg.mdConverting docx_file (md_output_file output_directory docx_file),
              Msg.mdFailed docx_file (md_output_file output_directory docx_file)]
      spawned := false }
  else
    { fs := pandocFs proc fs (md_output_file output_directory docx_file)
      log := Msg.mdConverting docx_file (md_output_file output_directory docx_file) ::
        mdResultLog proc docx_file (md_output_file output_directory docx_file) verbose
      spawned := true }

/-- A LibreOffice run that succeeds quietly and writes one byte. -/
def exProcOk : Proc := { stdout := "", stderr := "", writes := some [1] }

/-- A LibreOffice run that fails loudly and writes nothing. -/
def exProcBad : Proc := { stdout := "", stderr := exBoom, writes := none }

/-- A LibreOffice run whose stderr is a single newline and which writes
one byte. -/
def exProcWs : Proc := { stdout := "", stderr := exNl, writes := some [1] }

/-- A pandoc run that succeeds and writes one byte. -/
def exPandocOk : PandocProc :=
  { raises := false, returncode := 0, stdout := "", stderr := "", writes := some [2] }

theorem fsLookup_fsErase_self (fs : FS) (n : String) :
    fsLookup (fsErase fs n) n = none := by
  induction fs with
  | nil => rfl
  | cons p rest ih =>
      obtain ⟨m, c⟩ := p
      by_cases h : m = n
      · simpa [fsErase, h] using ih
      · simp [fsErase, fsLookup, h, ih]

theorem fsLookup_fsWrite_self (fs : FS) (n : String) (c : Content) :
    fsLookup (fsWrite fs n c) n = some c := by
  simp [fsWrite, fsLookup]

theorem fsExists_false_eq_none (fs : FS) (n : String)
    (h : fsExists fs n = false) : fsLookup fs n = none := by
  cases hx : fsLookup fs n with
  | none => rfl
  | some c => unfold fsExists at h; rw [hx] at h; simp at h

theorem tallyInc_skipped (t : Tally) :
    tallyInc t ("skipped") = { t with skipped := t.skipped + 1 } := rfl

theorem tallyInc_success (t : Tally) :
    tallyInc t ("success") = { t with success := t.success + 1 } := rfl

theorem tallyInc_error (t : Tally) :
    tallyInc t ("error") = { t with error := t.error + 1 } := rfl

theorem tallyInc_resError (t : Tally) :
    tallyInc t resError = { t with error := t.error + 1 } := rfl

theorem download_body_ret_cases (fs : FS) (fn : String) (net : Net)
    (v : Bool) (log0 : List Msg) (s : String)
    (h : (download_body fs fn net v log0).out = DLOutcome.ret s) :
    s = "success" ∨ s = "error" := by
  cases net with
  | requestError =>
      cases hex : fsExists fs fn <;>
        simp [download_body, hex, resError] at h
      first
      | exact Or.inr h
      | exact Or.inr h.symm
  | response cl chunks tail =>
      cases tail <;> simp [download_body, resSuccess, resError] at h
      · first
        | exact Or.inl h
        | exact Or.inl h.symm
      · first
        | exact Or.inr h
        | exact Or.inr h.symm

theorem download_file_ret_cases (fs : FS) (fn : String) (net : Net)
    (v o : Bool) (s : String)
    (h : (download_file fs fn net v o).out = DLOutcome.ret s) :
    s = "skipped" ∨ s = "success" ∨ s = "error" := by
  by_cases hex : fsExists fs fn = true
  · cases o with
    | false =>
        simp [download_file, hex, resSkipped] at h
        first
        | exact Or.inl h
        | exact Or.inl h.symm
    | true =>
        rw [download_file, if_pos hex, if_pos rfl] at h
        exact Or.inr (download_body_ret_cases _ _ _ _ _ _ h)
  · rw [download_file, if_neg hex] at h
    exact Or.inr (download_body_ret_cases _ _ _ _ _ _ h)

theorem dlLoop_cons_ret (fs : FS) (t : Tally) (c : Candidate)
    (rest : List Candidate) (v o : Bool) (s : String)
    (hout : (download_file fs c.filename c.net v o).out = DLOutcome.ret s) :
    dlLoop fs t (c :: rest) v o =
      { tally := (dlLoop (download_file fs c.filename c.net v o).fs
          (tallyInc t s) rest v o).tally
        fs := (dlLoop (download_file fs c.filename c.net v o).fs
          (tallyInc t s) rest v o).fs
        log := (download_file fs c.filename c.net v o).log ++
          (dlLoop (download_file fs c.filename c.net v o).fs
            (tallyInc t s) rest v o).log
        exit := (dlLoop (download_file fs c.filename c.net v o).fs
          (tallyInc t s) rest v o).exit } := by
  simp only [dlLoop, hout]

theorem dlLoop_cons_kbd (fs : FS) (t : Tally) (c : Candidate)
    (rest : List Candidate) (v o : Bool)
    (hout : (download_file fs c.filename c.net v o).out =
      DLOutcome.raise Exc.kbd) :
    dlLoop fs t (c :: rest) v o =
      { tally := tallyInc t resError
        fs := if fsExists (download_file fs c.filename c.net v o).fs
                c.filename then
                fsErase (download_file fs c.filename c.net v o).fs c.filename
              else (download_file fs c.filename c.net v o).fs
        log := (download_file fs c.filename c.net v o).log ++
          Msg.interrupted c.filename ::
            (if fsExists (download_file fs c.filename c.net v o).fs
               c.filename then [Msg.deletedFile c.filename] else [])
        exit := LoopExit.interruptedStop } := by
  simp only [dlLoop, hout]

theorem dlLoop_cons_unbound (fs : FS) (t : Tally) (c : Candidate)
    (rest : List Candidate) (v o : Bool)
    (hout : (download_file fs c.filename c.net v o).out =
      DLOutcome.raise Exc.unboundLocal) :
    dlLoop fs t (c :: rest) v o =
      { tally := t
        fs := (download_file fs c.filename c.net v o).fs
        log := (download_file fs c.filename c.net v o).log
        exit := LoopExit.crashed Exc.unboundLocal } := by
  simp only [dlLoop, hout]

theorem dlLoop_finished_sum (cands : List Candidate) :
    ∀ (fs : FS) (t : Tally) (v o : Bool),
      (dlLoop fs t cands v o).exit = LoopExit.finished →
      tallySum (dlLoop fs t cands v o).tally = tallySum t + cands.length := by
  induction cands with
  | nil => intro fs t v o _; simp [dlLoop]
  | cons c rest ih =>
      intro fs t v o h
      cases hout : (download_file fs c.filename c.net v o).out with
      | ret s =>
          rw [dlLoop_cons_ret fs t c rest v o s hout] at h ⊢
          have hsum := ih (download_file fs c.filename c.net v o).fs
            (tallyInc t s) v o h
          rw [hsum]
          rcases download_file_ret_cases fs c.filename c.net v o s hout with
            h1 | h1 | h1 <;> subst h1 <;>
              simp [tallyInc_skipped, tallyInc_success, tallyInc_error,
                tallySum, List.length_cons] <;> omega
      | raise e =>
          cases e with
          | kbd => rw [dlLoop_cons_kbd fs t c rest v o hout] at h; simp at h
          | unboundLocal =>
              rw [dlLoop_cons_unbound fs t c rest v o hout] at h; simp at h

theorem dlLoop_overwrite_const (cands : List Candidate) :
    ∀ (fs : FS) (t : Tally) (v o : Bool),
      (dlLoop fs t cands v o).tally.overwrite = t.overwrite := by
  induction cands with
  | nil => intro fs t v o; simp [dlLoop]
  | cons c rest ih =>
      intro fs t v o
      cases hout : (download_file fs c.filename c.net v o).out with
      | ret s =>
          rw [dlLoop_cons_ret fs t c rest v o s hout]
          rw [ih]
          rcases download_file_ret_cases fs c.filename c.net v o s hout with
            h1 | h1 | h1 <;> subst h1 <;> rfl
      | raise e =>
          cases e with
          | kbd =>
              rw [dlLoop_cons_kbd fs t c rest v o hout]
              rfl
          | unboundLocal =>
              rw [dlLoop_cons_unbound fs t c rest v o hout]

theorem download_file_eq_body (fs : FS) (fn : String) (net : Net) (v o : Bool)
    (hreach : fsExists fs fn = false ∨ o = true) :
    download_file fs fn net v o =
      download_body fs fn net v
        (if fsExists fs fn then [Msg.overwriting fn] else []) := by
  rcases hreach with h | h
  · rw [download_file, if_neg (by simp [h]), if_neg (by simp [h])]
  · subst h
    by_cases hex : fsExists fs fn = true
    · rw [download_file, if_pos hex, if_pos rfl, if_pos hex]
    · rw [download_file, if_neg hex, if_neg hex]

theorem download_body_mismatch (fs : FS) (fn : String) (cl : Option Nat)
    (chunks : List Content) (tail : StreamTail) (v : Bool) (log0 : List Msg)
    (hmism : (List.flatten chunks).length ≠ cl.getD 0) :
    fsLookup (download_body fs fn (Net.response cl chunks tail) v log0).fs fn =
      none ∧
    Msg.deletedFile fn ∈
      (download_body fs fn (Net.response cl chunks tail) v log0).log := by
  constructor
  · simp only [download_body]
    rw [if_neg hmism]
    exact fsLookup_fsErase_self _ _
  · simp only [download_body]
    rw [if_neg hmism]
    simp

theorem convDocxLog_of_strip_ne (proc : Proc) (d f : String)
    (hstrip : strStrip proc.stderr ≠ "") :
    Msg.procError proc.stderr ∈ convDocxLog proc d f ∧
    Msg.convertFailed d f ∈ convDocxLog proc d f ∧
    Msg.converted d f ∉ convDocxLog proc d f := by
  have hne : proc.stderr ≠ "" := fun h => hstrip (by rw [h]; rfl)
  by_cases hstd : proc.stdout = "" <;> simp [convDocxLog, hne, hstrip, hstd]

/-- C1.  The overwrite=false half of the claim holds for all three
operations: an existing target is left untouched, the call is reported as
skipped, no process is spawned and no request is issued.  The
overwrite=true half holds in the amended form: the operation proceeds
(the process is spawned, the download runs) and the target is replaced
whenever the operation succeeds, namely when the spawned process writes
its output, respectively when the download completes with a size equal to
the advertised content length. -/
theorem c1_overwrite_semantics :
    (∀ (proc : Proc) (fs : FS) (d p : String),
      fsExists fs (docx_output_file p d) = true →
      (convert_to_docx proc fs d p false).fs = fs ∧
      (convert_to_docx proc fs d p false).spawned = false) ∧
    (∀ (proc : PandocProc) (fs : FS) (d dir : String) (verb : Bool),
      fsExists fs (md_output_file dir d) = true →
      (convert_to_md proc fs d dir false verb).fs = fs ∧
      (convert_to_md proc fs d dir false verb).spawned = false) ∧
    (∀ (fs : FS) (fn : String) (net : Net) (v : Bool),
      fsExists fs fn = true →
      download_file fs fn net v false =
        { fs := fs, log := [Msg.skipping fn], out := DLOutcome.ret resSkipped,
          requested := false }) ∧
    (∀ (proc : Proc) (fs : FS) (d p : String) (c : Content),
      fsExists fs (docx_output_file p d) = true →
      proc.writes = some c →
      (convert_to_docx proc fs d p true).spawned = true ∧
      fsLookup (convert_to_docx proc fs d p true).fs (docx_output_file p d) =
        some c) ∧
    (∀ (proc : PandocProc) (fs : FS) (d dir : String) (verb : Bool)
      (c : Content),
      fsExists fs (md_output_file dir d) = true →
      proc.raises = false →
      proc.writes = some c →
      (convert_to_md proc fs d dir true verb).spawned = true ∧
      fsLookup (convert_to_md proc fs d dir true verb).fs
        (md_output_file dir d) = some c) ∧
    (∀ (fs : FS) (fn : String) (cl : Option Nat) (chunks : List Content)
      (v : Bool),
      fsExists fs fn = true →
      (List.flatten chunks).length = cl.getD 0 →
      (download_file fs fn (Net.response cl chunks StreamTail.done) v
        true).out = DLOutcome.ret resSuccess ∧
      fsLookup (download_file fs fn (Net.response cl chunks StreamTail.done)
        v true).fs fn = some (List.flatten chunks)) := by
  refine ⟨?_, ?_, ?_, ?_, ?_, ?_⟩
  · intro proc fs d p h
    simp [convert_to_docx, h]
  · intro proc fs d dir verb h
    simp [convert_to_md, h]
  · intro fs fn net v h
    simp [download_file, h]
  · intro proc fs d p c h hw
    simp [convert_to_docx, h, convProcFs, hw, fsLookup_fsWrite_self]
  · intro proc fs d dir verb c h hr hw
    simp [convert_to_md, h, hr, pandocFs, hw, fsLookup_fsWrite_self]
  · intro fs fn cl chunks v h hlen
    rw [download_file, if_pos h, if_pos rfl]
    constructor
    · simp [download_body]
    · simp only [download_body]
      rw [if_pos hlen]
      exact fsLookup_fsWrite_self _ _ _

/-- C1 counterexample: with overwrite=true on an existing docx target and
a conversion that fails (non-whitespace stderr, nothing written), the
target is NOT replaced: after the call it still holds its old contents
and the filesystem is unchanged, refuting the claim that overwrite=true
always replaces the file. -/
theorem c1_counterexample :
    (convert_to_docx exProcBad [(exDocxTarget, [7])] exDocFile exOutDir
      true).spawned = true ∧
    (convert_to_docx exProcBad [(exDocxTarget, [7])] exDocFile exOutDir
      true).fs = [(exDocxTarget, [7])] := by decide

/-- C1 witness: the amended theorem applied at concrete inputs, one
instance per conjunct. -/
theorem c1_witness :
    ((convert_to_docx exProcOk [(exDocxTarget, [7])] exDocFile exOutDir
        false).fs = [(exDocxTarget, [7])] ∧
      (convert_to_docx exProcOk [(exDocxTarget, [7])] exDocFile exOutDir
        false).spawned = false) ∧
    ((convert_to_md exPandocOk [(exMdTarget, [8])] exDocxFile exOutDir
        false false).fs = [(exMdTarget, [8])] ∧
      (convert_to_md exPandocOk [(exMdTarget, [8])] exDocxFile exOutDir
        false false).spawned = false) ∧
    (download_file [(exF, [3])] exF Net.requestError false false =
      { fs := [(exF, [3])], log := [Msg.skipping exF],
        out := DLOutcome.ret resSkipped, requested := false }) ∧
    ((convert_to_docx exProcOk [(exDocxTarget, [7])] exDocFile exOutDir
        true).spawned = true ∧
      fsLookup (convert_to_docx exProcOk [(exDocxTarget, [7])] exDocFile
        exOutDir true).fs (docx_output_file exOutDir exDocFile) = some [1]) ∧
    ((convert_to_md exPandocOk [(exMdTarget, [8])] exDocxFile exOutDir
        true false).spawned = true ∧
      fsLookup (convert_to_md exPandocOk [(exMdTarget, [8])] exDocxFile
        exOutDir true false).fs (md_output_file exOutDir exDocxFile) =
        some [2]) ∧
    ((download_file [(exF, [3])] exF
        (Net.response (some 2) [[1, 2]] StreamTail.done) false true).out =
        DLOutcome.ret resSuccess ∧
      fsLookup (download_file [(exF, [3])] exF
        (Net.response (some 2) [[1, 2]] StreamTail.done) false true).fs exF =
        some (List.flatten [[1, 2]])) :=
  ⟨c1_overwrite_semantics.1 exProcOk _ exDocFile exOutDir (by decide),
   c1_overwrite_semantics.2.1 exPandocOk _ exDocxFile exOutDir false
     (by decide),
   c1_overwrite_semantics.2.2.1 _ exF Net.requestError false (by decide),
   c1_overwrite_semantics.2.2.2.1 exProcOk _ exDocFile exOutDir [1]
     (by decide) rfl,
   c1_overwrite_semantics.2.2.2.2.1 exPandocOk _ exDocxFile exOutDir false
     [2] (by decide) rfl rfl,
   c1_overwrite_semantics.2.2.2.2.2 _ exF (some 2) [[1, 2]] false
     (by decide) (by decide)⟩

/-- C2.  Confirmed: whenever download_file reaches the streaming phase
(the target did not exist, or overwrite was set) and the response
advertises a Content-Length n different from the number of bytes on disk
after the stream completes or raises, the finally clause deletes the file
and logs the deletion. -/
theorem c2_size_mismatch_deleted (fs : FS) (fn : String) (n : Nat)
    (chunks : List Content) (tail : StreamTail) (v o : Bool)
    (hreach : fsExists fs fn = false ∨ o = true)
    (hmism : (List.flatten chunks).length ≠ n) :
    fsLookup
      (download_file fs fn (Net.response (some n) chunks tail) v o).fs fn =
      none ∧
    Msg.deletedFile fn ∈
      (download_file fs fn (Net.response (some n) chunks tail) v o).log := by
  rw [download_file_eq_body fs fn _ v o hreach]
  exact download_body_mismatch fs fn (some n) chunks tail v _
    (by simpa using hmism)

/-- C2 witness: a one-chunk download advertised as five bytes is deleted. -/
theorem c2_witness :
    fsLookup (download_file [] exF
      (Net.response (some 5) [[1]] StreamTail.done) false false).fs exF =
      none ∧
    Msg.deletedFile exF ∈ (download_file [] exF
      (Net.response (some 5) [[1]] StreamTail.done) false false).log :=
  c2_size_mismatch_deleted [] exF 5 [[1]] StreamTail.done false false
    (Or.inl rfl) (by decide)

/-- C3 counterexample: a stream that raises a requests exception before
delivering any byte of a response that has no Content-Length header
leaves a zero-byte file on disk (the size on disk, 0, equals the
defaulted expected size, so the cleanup keeps it), refuting the claim
that an interrupted download never leaves a partial file. -/
theorem c3_counterexample :
    (download_file [] exF (Net.response none [] StreamTail.raiseReq) false
      false).out = DLOutcome.ret resError ∧
    fsLookup (download_file [] exF
      (Net.response none [] StreamTail.raiseReq) false false).fs exF =
      some [] := by decide

/-- C3 amended.  On a KeyboardInterrupt raised by the in-progress
download, the batch loop handler guarantees everything the claim says:
the in-progress file is gone afterwards, the error tally is incremented,
the loop stops, and the result does not depend on the remaining
candidates.  On a mid-stream requests exception the partial file is
deleted exactly when its size differs from the advertised content length
(defaulted to zero when the header is absent); the run continues either
way. -/
theorem c3_interrupt_cleanup :
    (∀ (fs : FS) (t : Tally) (c : Candidate) (rest rest2 : List Candidate)
      (v o : Bool),
      (download_file fs c.filename c.net v o).out =
        DLOutcome.raise Exc.kbd →
      (dlLoop fs t (c :: rest) v o).exit = LoopExit.interruptedStop ∧
      (dlLoop fs t (c :: rest) v o).tally = tallyInc t resError ∧
      fsLookup (dlLoop fs t (c :: rest) v o).fs c.filename = none ∧
      dlLoop fs t (c :: rest) v o = dlLoop fs t (c :: rest2) v o) ∧
    (∀ (fs : FS) (fn : String) (cl : Option Nat) (chunks : List Content)
      (v o : Bool),
      fsExists fs fn = false ∨ o = true →
      (List.flatten chunks).length ≠ cl.getD 0 →
      (download_file fs fn (Net.response cl chunks StreamTail.raiseReq) v
        o).out = DLOutcome.ret resError ∧
      fsLookup (download_file fs fn
        (Net.response cl chunks StreamTail.raiseReq) v o).fs fn = none) := by
  constructor
  · intro fs t c rest rest2 v o hk
    rw [dlLoop_cons_kbd fs t c rest v o hk, dlLoop_cons_kbd fs t c rest2 v o hk]
    refine ⟨rfl, rfl, ?_, rfl⟩
    by_cases hex :
        fsExists (download_file fs c.filename c.net v o).fs c.filename = true
    · rw [if_pos hex]
      exact fsLookup_fsErase_self _ _
    · rw [if_neg hex]
      refine fsExists_false_eq_none _ _ ?_
      simpa using hex
  · intro fs fn cl chunks v o hreach hmism
    rw [download_file_eq_body fs fn _ v o hreach]
    refine ⟨by simp [download_body], ?_⟩
    exact (download_body_mismatch fs fn cl chunks StreamTail.raiseReq v _
      hmism).1

/-- C3 witness: both halves of the amended theorem at concrete inputs. -/
theorem c3_witness :
    ((dlLoop [] zeroTally
        [⟨exF, Net.response none [[1]] StreamTail.raiseKbd⟩,
          ⟨exG, Net.requestError⟩] false false).exit =
        LoopExit.interruptedStop ∧
      (dlLoop [] zeroTally
        [⟨exF, Net.response none [[1]] StreamTail.raiseKbd⟩,
          ⟨exG, Net.requestError⟩] false false).tally =
        tallyInc zeroTally resError ∧
      fsLookup (dlLoop [] zeroTally
        [⟨exF, Net.response none [[1]] StreamTail.raiseKbd⟩,
          ⟨exG, Net.requestError⟩] false false).fs exF = none ∧
      dlLoop [] zeroTally
        [⟨exF, Net.response none [[1]] StreamTail.raiseKbd⟩,
          ⟨exG, Net.requestError⟩] false false =
        dlLoop [] zeroTally
          [⟨exF, Net.response none [[1]] StreamTail.raiseKbd⟩] false false) ∧
    ((download_file [] exF (Net.response (some 5) [[1]] StreamTail.raiseReq)
        false false).out = DLOutcome.ret resError ∧
      fsLookup (download_file [] exF
        (Net.response (some 5) [[1]] StreamTail.raiseReq) false false).fs
        exF = none) :=
  ⟨c3_interrupt_cleanup.1 [] zeroTally
      ⟨exF, Net.response none [[1]] StreamTail.raiseKbd⟩
      [⟨exG, Net.requestError⟩] [] false false (by decide),
   c3_interrupt_cleanup.2 [] exF (some 5) [[1]] false false (Or.inl rfl)
     (by decide)⟩

/-- C4 counterexample: two candidate links pass the filter, the first
download is interrupted by the user, the loop breaks, and the printed
tally sums to one, not two, refuting the claim for interrupted runs. -/
theorem c4_counterexample :
    tallySum (download_files_run [] exBaseUrl exProj [exHrefA, exHrefB]
      [exPdf] (fun _ => Net.response none [[1]] StreamTail.raiseKbd) false
      false).tally = 1 ∧
    (files_to_download exBaseUrl [exHrefA, exHrefB] [exPdf]).length = 2 := by
  decide

/-- C4 amended: in every run whose download loop finishes without being
interrupted or crashed, the printed tally sums exactly to the number of
candidate links retained by the extension filter. -/
theorem c4_tally_after_filter (fs : FS) (url pf : String)
    (hrefs exts : List String) (net : String → Net) (v o : Bool)
    (h : (download_files_run fs url pf hrefs exts net v o).exit =
      LoopExit.finished) :
    tallySum (download_files_run fs url pf hrefs exts net v o).tally =
      (files_to_download url hrefs exts).length := by
  unfold download_files_run at h ⊢
  rw [dlLoop_finished_sum _ _ _ _ _ h]
  simp [zeroTally, tallySum]

/-- C4 witness: one candidate, one completed download, tally sums to the
filter count. -/
theorem c4_witness :
    tallySum (download_files_run [] exBaseUrl exProj [exHrefA] [exPdf]
      (fun _ => Net.response (some 1) [[1]] StreamTail.done) false
      false).tally =
      (files_to_download exBaseUrl [exHrefA] [exPdf]).length :=
  c4_tally_after_filter [] exBaseUrl exProj [exHrefA] [exPdf]
    (fun _ => Net.response (some 1) [[1]] StreamTail.done) false false
    (by decide)

/-- C5.  The claim describes the intended error handling, but the code
slips: when an existing file is being overwritten and requests.get itself
raises, the finally clause reads total_size, a local never assigned on
that path, so download_file raises UnboundLocalError instead of
returning the error key; download_files catches only KeyboardInterrupt,
so the whole batch aborts instead of continuing.  This theorem evaluates
the model at that failing input: the error is still printed, but the
function raises and the loop crashes. -/
theorem c5_request_error_crash :
    (download_file [(exDlTarget, [7])] exDlTarget Net.requestError false
      true).out = DLOutcome.raise Exc.unboundLocal ∧
    Msg.dlError exDlTarget ∈ (download_file [(exDlTarget, [7])] exDlTarget
      Net.requestError false true).log ∧
    (dlLoop [(exDlTarget, [7])] zeroTally [⟨exDlTarget, Net.requestError⟩]
      false true).exit = LoopExit.crashed Exc.unboundLocal := by decide

/-- C6 counterexample: a spawned conversion whose stderr is a single
newline (non-empty) is NOT treated as a failure: the failure line is
never logged and the success line is logged, refuting the claim for
whitespace-only stderr. -/
theorem c6_counterexample :
    exNl ≠ "" ∧
    Msg.converted exDocFile exDocxTarget ∈
      (convert_to_docx exProcWs [] exDocFile exOutDir false).log ∧
    Msg.convertFailed exDocFile exDocxTarget ∉
      (convert_to_docx exProcWs [] exDocFile exOutDir false).log := by decide

/-- C6 amended: whenever the spawned process produces stderr that is
non-empty AFTER stripping whitespace, the conversion is treated as a
failure: the raw stderr and the failure line are logged, the success line
is not, and the function returns normally (the embedding is total, as the
source never raises here). -/
theorem c6_stderr_failure (proc : Proc) (fs : FS) (d p : String) (o : Bool)
    (hreach : fsExists fs (docx_output_file p d) = false ∨ o = true)
    (hstrip : strStrip proc.stderr ≠ "") :
    (convert_to_docx proc fs d p o).spawned = true ∧
    Msg.procError proc.stderr ∈ (convert_to_docx proc fs d p o).log ∧
    Msg.convertFailed d (docx_output_file p d) ∈
      (convert_to_docx proc fs d p o).log ∧
    Msg.converted d (docx_output_file p d) ∉
      (convert_to_docx proc fs d p o).log := by
  obtain ⟨hp, hmem, hnot⟩ :=
    convDocxLog_of_strip_ne proc d (docx_output_file p d) hstrip
  rcases hreach with h | h
  · rw [convert_to_docx, if_neg (by simp [h])]
    exact ⟨rfl, hp, hmem, hnot⟩
  · subst h
    by_cases hex : fsExists fs (docx_output_file p d) = true
    · rw [convert_to_docx, if_pos hex, if_pos rfl]
      refine ⟨rfl, List.mem_cons_of_mem _ hp, List.mem_cons_of_mem _ hmem,
        ?_⟩
      simp [List.mem_cons, hnot]
    · rw [convert_to_docx, if_neg hex]
      exact ⟨rfl, hp, hmem, hnot⟩

/-- C6 witness: the amended theorem at a concrete failing conversion. -/
theorem c6_witness :
    (convert_to_docx exProcBad [] exDocFile exOutDir false).spawned = true ∧
    Msg.procError exBoom ∈
      (convert_to_docx exProcBad [] exDocFile exOutDir false).log ∧
    Msg.convertFailed exDocFile (docx_output_file exOutDir exDocFile) ∈
      (convert_to_docx exProcBad [] exDocFile exOutDir false).log ∧
    Msg.converted exDocFile (docx_output_file exOutDir exDocFile) ∉
      (convert_to_docx exProcBad [] exDocFile exOutDir false).log :=
  c6_stderr_failure exProcBad [] exDocFile exOutDir false (Or.inl rfl)
    (by decide)

/-- C7 counterexample: the href get.php?f=a.pdf is selected (its raw text
ends in .pdf) although its resolved URL path ends in .php, and the
spec-worded rule selects nothing, refuting the claim that selection is by
resolved URL path. -/
theorem c7_counterexample :
    files_to_download exUrl2 [exPhpHref] [exPdf] = [exResolvedPhp] ∧
    strEndsWith (urlPath exResolvedPhp) exPdf = false ∧
    files_per_spec exUrl2 [exPhpHref] [exPdf] = [] := by decide

/-- C7 amended: download_files selects exactly those links whose RAW href
string ends with one of the requested extensions, and the selected links
are resolved against the page URL afterwards. -/
theorem c7_selection_by_raw_href (url : String) (hrefs exts : List String)
    (r : String) :
    r ∈ files_to_download url hrefs exts ↔
      ∃ h, h ∈ hrefs ∧ (exts.any fun ext => strEndsWith h ext) = true ∧
        r = urljoin url h := by
  simp only [files_to_download, List.mem_map, List.mem_filter]
  constructor
  · rintro ⟨h, ⟨hh, hf⟩, hr⟩
    exact ⟨h, hh, hf, hr.symm⟩
  · rintro ⟨h, hh, hf, hr⟩
    exact ⟨h, ⟨hh, hf⟩, hr.symm⟩

/-- C8.  Confirmed: valid_url accepts exactly the strings starting with
one of the two scheme markers and returns them unchanged, rejecting
everything else; valid_extension accepts exactly the strings starting
with a dot.  Both embedded validators are pure functions of their
argument, mirroring the source bodies, which perform no network or
filesystem access. -/
theorem c8_validators (s : String) :
    ((valid_url s = Except.ok s) ↔
      (strStartsWith s httpScheme = true ∨
        strStartsWith s httpsScheme = true)) ∧
    ((∃ m, valid_url s = Except.error m) ↔
      ¬(strStartsWith s httpScheme = true ∨
        strStartsWith s httpsScheme = true)) ∧
    ((valid_extension s = Except.ok s) ↔ strStartsWith s dotStr = true) ∧
    ((∃ m, valid_extension s = Except.error m) ↔
      ¬strStartsWith s dotStr = true) := by
  by_cases h1 : strStartsWith s httpScheme = true <;>
    by_cases h2 : strStartsWith s httpsScheme = true <;>
      by_cases h3 : strStartsWith s dotStr = true <;>
        simp [valid_url, valid_extension, h1, h2, h3]

/-- C9.  Confirmed: when the response has no Content-Length header and
the body is non-empty, download_file returns the success key and yet its
cleanup deletes the fully downloaded file (the expected size defaults to
zero and never matches), so a success tally entry corresponds to no file
on disk. -/
theorem c9_missing_content_length (fs : FS) (fn : String)
    (chunks : List Content) (v o : Bool)
    (hreach : fsExists fs fn = false ∨ o = true)
    (hne : List.flatten chunks ≠ []) :
    (download_file fs fn (Net.response none chunks StreamTail.done) v
      o).out = DLOutcome.ret resSuccess ∧
    fsLookup (download_file fs fn
      (Net.response none chunks StreamTail.done) v o).fs fn = none ∧
    Msg.deletedFile fn ∈ (download_file fs fn
      (Net.response none chunks StreamTail.done) v o).log := by
  rw [download_file_eq_body fs fn _ v o hreach]
  have hm : (List.flatten chunks).length ≠ (none : Option Nat).getD 0 := by
    intro h
    exact hne (List.length_eq_zero.mp (by simpa using h))
  obtain ⟨h1, h2⟩ :=
    download_body_mismatch fs fn none chunks StreamTail.done v _ hm
  exact ⟨by simp [download_body], h1, h2⟩

/-- C9 witness: a one-byte download with no Content-Length header. -/
theorem c9_witness :
    (download_file [] exF (Net.response none [[1]] StreamTail.done) false
      false).out = DLOutcome.ret resSuccess ∧
    fsLookup (download_file [] exF
      (Net.response none [[1]] StreamTail.done) false false).fs exF =
      none ∧
    Msg.deletedFile exF ∈ (download_file [] exF
      (Net.response none [[1]] StreamTail.done) false false).log :=
  c9_missing_content_length [] exF [[1]] false false (Or.inl rfl)
    (by decide)

/-- C10.  Confirmed: download_file only ever returns one of the skipped,
success and error keys, never overwrite; consequently the overwrite
counter of the tally printed by download_files is zero in every run; and
a download that replaces an existing file (overwrite set, stream
completed with matching size) returns the success key, so it is counted
under success. -/
theorem c10_result_keys :
    (∀ (fs : FS) (fn : String) (net : Net) (v o : Bool) (s : String),
      (download_file fs fn net v o).out = DLOutcome.ret s →
      s = "skipped" ∨ s = "success" ∨ s = "error") ∧
    (∀ (fs : FS) (url pf : String) (hrefs exts : List String)
      (net : String → Net) (v o : Bool),
      (download_files_run fs url pf hrefs exts net v o).tally.overwrite =
        0) ∧
    (∀ (fs : FS) (fn : String) (cl : Option Nat) (chunks : List Content)
      (v : Bool),
      fsExists fs fn = true →
      (List.flatten chunks).length = cl.getD 0 →
      (download_file fs fn (Net.response cl chunks StreamTail.done) v
        true).out = DLOutcome.ret resSuccess) := by
  refine ⟨download_file_ret_cases, ?_, ?_⟩
  · intro fs url pf hrefs exts net v o
    unfold download_files_run
    rw [dlLoop_overwrite_const]
    rfl
  · intro fs fn cl chunks v h hlen
    rw [download_file, if_pos h, if_pos rfl]
    simp [download_body]

/-- C10 witness: the key lemma at a request failure, and the
replace-counts-as-success part at a completed overwrite. -/
theorem c10_witness :
    (resError = "skipped" ∨ resError = "success" ∨ resError = "error") ∧
    (download_file [(exF, [1])] exF
      (Net.response (some 1) [[1]] StreamTail.done) false true).out =
      DLOutcome.ret resSuccess :=
  ⟨c10_result_keys.1 [] exF Net.requestError false false resError
      (by decide),
   c10_result_keys.2.2 [(exF, [1])] exF (some 1) [[1]] false (by decide)
     (by decide)⟩

/-- C7 witness: the amended characterization applied at the concrete
counterexample link. -/
theorem c7_witness :
    exResolvedPhp ∈ files_to_download exUrl2 [exPhpHref] [exPdf] ↔
      ∃ h, h ∈ [exPhpHref] ∧
        ([exPdf].any fun ext => strEndsWith h ext) = true ∧
        exResolvedPhp = urljoin exUrl2 h :=
  c7_selection_by_raw_href exUrl2 [exPhpHref] [exPdf] exResolvedPhp

/-- C8 witness: the validator characterization applied at a concrete
URL string. -/
theorem c8_witness :
    ((valid_url exBaseUrl = Except.ok exBaseUrl) ↔
      (strStartsWith exBaseUrl httpScheme = true ∨
        strStartsWith exBaseUrl httpsScheme = true)) ∧
    ((∃ m, valid_url exBaseUrl = Except.error m) ↔
      ¬(strStartsWith exBaseUrl httpScheme = true ∨
        strStartsWith exBaseUrl httpsScheme = true)) ∧
    ((valid_extension exBaseUrl = Except.ok exBaseUrl) ↔
      strStartsWith exBaseUrl dotStr = true) ∧
    ((∃ m, valid_extension exBaseUrl = Except.error m) ↔
      ¬strStartsWith exBaseUrl dotStr = true) :=
  c8_validators exBaseUrl

end BookS
